import Mathlib

/-!
Shallow embedding of the brightnal_backend product-catalog service.

Three server revisions are modelled, each as a pure function over explicit
state, with the outcomes of external calls (Cloudinary uploads/destroys and
database statements) supplied as oracle arguments:

* `serverJs*`   — `src/backend/server.js` (single-image rows, pg pool);
* `part001*`    — `src/unnamed/part_001` (multi-image rows, neon, base64 images);
* `part002*`    — `src/unnamed/part_002` (auth-enabled revision of server.js).

The object store (Cloudinary) is modelled as the set of stored public ids;
the record store as a list of rows.  Every external side effect a handler
performs is additionally recorded in an event trace, so ordering claims can
be stated.
-/

/-- A JavaScript request-body value as the handlers see it: an omitted field
(`undefined`), a string (form fields / JSON strings), or a JSON number. -/
inductive JSValue where
  | undef
  | str (s : String)
  | num (q : ℚ)
deriving DecidableEq, Repr

/-- JS truthiness of a body value (`undefined` and `null` are falsy, `""` is
falsy, the number `0` is falsy, everything else here is truthy). -/
def JSValue.truthy : JSValue → Bool
  | .undef => false
  | .str s => s ≠ ""
  | .num q => q ≠ 0

/-- String conversion applied when a truthy body value is bound to a TEXT
column parameter. -/
def JSValue.toStr : JSValue → String
  | .undef => "undefined"
  | .str s => s
  | .num q => toString q

/-- `v || d` for a TEXT-bound value: the JS short-circuiting default used
throughout the insert/update value arrays. -/
def strOr (v : JSValue) (d : String) : String :=
  if v.truthy then v.toStr else d

/-- Direct binding of a body value to a nullable TEXT column: `undefined` is
serialized as SQL NULL by the driver. -/
def jsToDb : JSValue → Option String
  | .undef => none
  | .str s => some s
  | .num q => some (toString q)

/-- Longest leading run of decimal digits of a character list. -/
def takeDigits : List Char → List Char × List Char
  | [] => ([], [])
  | c :: cs =>
      if c.isDigit then
        let (ds, rest) := takeDigits cs
        (c :: ds, rest)
      else ([], c :: cs)

/-- Numeric value of a digit list (most significant first). -/
def digitsToNat (ds : List Char) : ℕ :=
  ds.foldl (fun a c => 10 * a + (c.toNat - 48)) 0

/-- Unsigned decimal prefix of a character list: integer digits with an
optional fractional part.  `none` when no digit is present (JS `NaN`).
Exponent notation is not modelled (no input in this development uses it). -/
def parseUnsigned (cs : List Char) : Option ℚ :=
  let p := takeDigits cs
  match p.2 with
  | '.' :: rest2 =>
      let q := takeDigits rest2
      if p.1.isEmpty ∧ q.1.isEmpty then none
      else some ((digitsToNat p.1 : ℚ) + (digitsToNat q.1 : ℚ) / ((10 : ℚ) ^ q.1.length))
  | _ => if p.1.isEmpty then none else some (digitsToNat p.1 : ℚ)

/-- JS `parseFloat` on a string: skip leading spaces, optional sign, then the
longest numeric prefix; trailing garbage is ignored; `none` models `NaN`. -/
def parseFloatStr (s : String) : Option ℚ :=
  match s.toList.dropWhile (fun c => c = ' ') with
  | '-' :: rest => (parseUnsigned rest).map (fun q => -q)
  | '+' :: rest => parseUnsigned rest
  | cs => parseUnsigned cs

/-- JS `parseInt` (radix 10) on a string: integer digit prefix only. -/
def parseIntStr (s : String) : Option ℤ :=
  match s.toList.dropWhile (fun c => c = ' ') with
  | '-' :: rest =>
      let p := takeDigits rest
      if p.1.isEmpty then none else some (-(digitsToNat p.1 : ℤ))
  | '+' :: rest =>
      let p := takeDigits rest
      if p.1.isEmpty then none else some (digitsToNat p.1 : ℤ)
  | cs =>
      let p := takeDigits cs
      if p.1.isEmpty then none else some (digitsToNat p.1 : ℤ)

/-- JS `parseFloat` applied to a body value (`parseFloat(undefined)` is
`NaN`, numbers round-trip through their decimal printing). -/
def jsParseFloat : JSValue → Option ℚ
  | .undef => none
  | .str s => parseFloatStr s
  | .num q => some q

/-- JS `parseInt` applied to a body value: for a number, the digit prefix of
its printing truncates toward zero. -/
def jsParseInt : JSValue → Option ℤ
  | .undef => none
  | .str s => parseIntStr s
  | .num q => some (if q < 0 then -((-q).floor) else q.floor)

example : parseFloatStr "0" = some 0 := by decide
example : parseFloatStr "-5" = some (-5) := by decide
example : parseFloatStr "abc" = none := by decide
example : parseIntStr "3" = some 3 := by decide

/-- One side effect performed against an external collaborator, in the order
the handler performed it. -/
inductive Ev where
  | upload (pid : String)
  | destroy (pid : String)
  | rowDelete (rid : String)
deriving DecidableEq, Repr

/-- The public ids of the compensating/cleanup destroys attempted in a trace. -/
def destroys (evs : List Ev) : List String :=
  evs.filterMap fun e =>
    match e with
    | .destroy p => some p
    | _ => none

/-- A successful Cloudinary upload result (the fields the handlers use). -/
structure UploadRes where
  secure_url : String
  public_id : String
deriving DecidableEq, Repr

/-- A row of the `products` table of `src/backend/server.js` (single image,
every TEXT field defaulted at insert; `price`/`stock` are `none` when the
handler bound a JS `NaN`). -/
structure RowSJ where
  id : ℕ
  product_name : String
  category : String
  brand : String
  price : Option ℚ
  stock : Option ℤ
  sku : String
  product_class : String
  sizes : String
  colors : String
  description : String
  image_url : String
  cloudinary_id : String
deriving DecidableEq, Repr

/-- The request body of the server.js / part_002 product routes. -/
structure BodySJ where
  productName : JSValue
  category : JSValue
  brand : JSValue
  price : JSValue
  stock : JSValue
  sku : JSValue
  productClass : JSValue
  sizes : JSValue
  colors : JSValue
  description : JSValue
deriving DecidableEq, Repr

/-- Outcome of a server.js handler: HTTP status (`none` when the handler
crashed on an un-caught awaited rejection and never responded), response
message, returned row if any, and the post-state of both stores plus the
side-effect trace. -/
structure OutSJ where
  status : Option ℕ
  msg : String
  row : Option RowSJ
  records : List RowSJ
  objects : Finset String
  events : List Ev
deriving DecidableEq

/-- The `values` array of server.js `POST /api/upload`: lenient defaults for
every structured field, image fields from the Cloudinary result. -/
def insValuesSJ (body : BodySJ) (r : UploadRes) (nextId now : ℕ) : RowSJ :=
  { id := nextId
    product_name := strOr body.productName "Untitled Product"
    category := strOr body.category "Uncategorized"
    brand := strOr body.brand "Unknown"
    price := if body.price.truthy then jsParseFloat body.price else some 0
    stock := if body.stock.truthy then jsParseInt body.stock else some 0
    sku := strOr body.sku ("SKU-" ++ toString now)
    product_class := strOr body.productClass "Standard"
    sizes := strOr body.sizes "N/A"
    colors := strOr body.colors "N/A"
    description := strOr body.description "No description"
    image_url := r.secure_url
    cloudinary_id := r.public_id }

/-- `POST /api/upload` of `src/backend/server.js`.  Oracles: `uploadResult`
(the awaited Cloudinary upload), `insertErr` (`none` = the INSERT succeeded,
`some m` = it threw with message `m`), `destroyOk` (whether the compensating
destroy in the catch block succeeds).  Note the destroy in the catch block is
itself awaited without a catch: if it rejects, the handler crashes and no
response is sent. -/
def serverJsUpload (filePresent : Bool) (body : BodySJ)
    (uploadResult : Except String UploadRes) (insertErr : Option String)
    (destroyOk : Bool) (records : List RowSJ) (objects : Finset String)
    (nextId now : ℕ) : OutSJ :=
  if filePresent then
    match uploadResult with
    | .error m =>
        { status := some 500, msg := m, row := none,
          records := records, objects := objects, events := [] }
    | .ok r =>
        let objects1 := insert r.public_id objects
        let row := insValuesSJ body r nextId now
        match insertErr with
        | none =>
            { status := some 201, msg := "Product uploaded successfully",
              row := some row, records := records ++ [row],
              objects := objects1, events := [Ev.upload r.public_id] }
        | some emsg =>
            if destroyOk then
              { status := some 500, msg := emsg, row := none,
                records := records, objects := objects1.erase r.public_id,
                events := [Ev.upload r.public_id, Ev.destroy r.public_id] }
            else
              { status := none, msg := "", row := none,
                records := records, objects := objects1,
                events := [Ev.upload r.public_id, Ev.destroy r.public_id] }
  else
    { status := some 400, msg := "No image file uploaded", row := none,
      records := records, objects := objects, events := [] }

/-- The `values` array of server.js `PUT /api/products/:id`: each structured
field falls back to the existing row value when the body value is falsy. -/
def updValuesSJ (body : BodySJ) (old : RowSJ) (imageUrl cid : String) : RowSJ :=
  { id := old.id
    product_name := if body.productName.truthy then body.productName.toStr else old.product_name
    category := if body.category.truthy then body.category.toStr else old.category
    brand := if body.brand.truthy then body.brand.toStr else old.brand
    price := if body.price.truthy then jsParseFloat body.price else old.price
    stock := if body.stock.truthy then jsParseInt body.stock else old.stock
    sku := if body.sku.truthy then body.sku.toStr else old.sku
    product_class := if body.productClass.truthy then body.productClass.toStr else old.product_class
    sizes := if body.sizes.truthy then body.sizes.toStr else old.sizes
    colors := if body.colors.truthy then body.colors.toStr else old.colors
    description := if body.description.truthy then body.description.toStr else old.description
    image_url := imageUrl
    cloudinary_id := cid }

/-- The database-update step of server.js `PUT /api/products/:id` together
with its catch block: on update failure, when a new image had been uploaded
(`hasNew`), its rollback destroy is awaited without a catch (crash on
rejection). -/
def persistSJ (id : ℕ) (body : BodySJ) (old : RowSJ) (imageUrl cid : String)
    (updateErr : Option String) (rollbackDestroyOk : Bool)
    (records : List RowSJ) (objects : Finset String) (evs : List Ev)
    (hasNew : Bool) (newPid : String) : OutSJ :=
  let row := updValuesSJ body old imageUrl cid
  match updateErr with
  | none =>
      { status := some 200, msg := "Product updated successfully",
        row := some row,
        records := records.map (fun r => if r.id == id then row else r),
        objects := objects, events := evs }
  | some emsg =>
      if hasNew then
        if rollbackDestroyOk then
          { status := some 500, msg := emsg, row := none, records := records,
            objects := objects.erase newPid,
            events := evs ++ [Ev.destroy newPid] }
        else
          { status := none, msg := "", row := none, records := records,
            objects := objects, events := evs ++ [Ev.destroy newPid] }
      else
        { status := some 500, msg := emsg, row := none, records := records,
          objects := objects, events := evs }

/-- `PUT /api/products/:id` of `src/backend/server.js`.  When a new file is
uploaded, the old Cloudinary image is destroyed immediately after the new
upload succeeds — before the database update is attempted.  That destroy is
awaited inside the try block: if it rejects, control jumps to the catch
block, which rolls back the new image and reports 500 (the database is never
updated). -/
def serverJsPut (id : ℕ) (body : BodySJ) (filePresent : Bool)
    (uploadResult : Except String UploadRes) (oldDestroyOk : Bool)
    (updateErr : Option String) (rollbackDestroyOk : Bool)
    (records : List RowSJ) (objects : Finset String) : OutSJ :=
  match records.find? (fun r => r.id == id) with
  | none =>
      { status := some 404, msg := "Product not found", row := none,
        records := records, objects := objects, events := [] }
  | some old =>
      if filePresent then
        match uploadResult with
        | .error m =>
            { status := some 500, msg := m, row := none,
              records := records, objects := objects, events := [] }
        | .ok r =>
            let objects1 := insert r.public_id objects
            let evs1 := [Ev.upload r.public_id]
            if old.cloudinary_id ≠ "" then
              let evs2 := evs1 ++ [Ev.destroy old.cloudinary_id]
              if oldDestroyOk then
                persistSJ id body old r.secure_url r.public_id updateErr
                  rollbackDestroyOk records (objects1.erase old.cloudinary_id)
                  evs2 true r.public_id
              else
                if rollbackDestroyOk then
                  { status := some 500, msg := "destroy failed", row := none,
                    records := records, objects := objects1.erase r.public_id,
                    events := evs2 ++ [Ev.destroy r.public_id] }
                else
                  { status := none, msg := "", row := none,
                    records := records, objects := objects1,
                    events := evs2 ++ [Ev.destroy r.public_id] }
            else
              persistSJ id body old r.secure_url r.public_id updateErr
                rollbackDestroyOk records objects1 evs1 true r.public_id
      else
        persistSJ id body old old.image_url old.cloudinary_id updateErr
          rollbackDestroyOk records objects [] false ""

/-- `DELETE /api/products/:id` of `src/backend/server.js`.  The Cloudinary
destroy is awaited inside the try block with no per-call catch: if it
rejects, the catch block responds 500 and the database row is never
deleted. -/
def serverJsDelete (id : ℕ) (destroyOk : Bool) (rowDeleteErr : Option String)
    (records : List RowSJ) (objects : Finset String) : OutSJ :=
  match records.find? (fun r => r.id == id) with
  | none =>
      { status := some 404, msg := "Product not found", row := none,
        records := records, objects := objects, events := [] }
  | some row =>
      if row.cloudinary_id ≠ "" then
        if destroyOk then
          match rowDeleteErr with
          | none =>
              { status := some 200, msg := "Product deleted successfully",
                row := none,
                records := records.filter (fun r => r.id != id),
                objects := objects.erase row.cloudinary_id,
                events := [Ev.destroy row.cloudinary_id,
                           Ev.rowDelete (toString id)] }
          | some _ =>
              { status := some 500, msg := "Failed to delete product",
                row := none, records := records,
                objects := objects.erase row.cloudinary_id,
                events := [Ev.destroy row.cloudinary_id] }
        else
          { status := some 500, msg := "Failed to delete product", row := none,
            records := records, objects := objects,
            events := [Ev.destroy row.cloudinary_id] }
      else
        match rowDeleteErr with
        | none =>
            { status := some 200, msg := "Product deleted successfully",
              row := none,
              records := records.filter (fun r => r.id != id),
              objects := objects, events := [Ev.rowDelete (toString id)] }
        | some _ =>
            { status := some 500, msg := "Failed to delete product",
              row := none, records := records, objects := objects,
              events := [] }

/-- The authenticated caller attached by the JWT middleware of part_002. -/
structure AuthUser where
  id : ℤ
  role : String
deriving DecidableEq, Repr

/-- A row of the `products` table of `src/unnamed/part_002`: the server.js
schema plus the `created_by` ownership column (nullable). -/
structure RowP2 where
  id : ℕ
  product_name : String
  category : String
  brand : String
  price : Option ℚ
  stock : Option ℤ
  sku : String
  product_class : String
  sizes : String
  colors : String
  description : String
  image_url : String
  cloudinary_id : String
  created_by : Option ℤ
deriving DecidableEq, Repr

/-- Outcome of a part_002 handler.  Every destroy in part_002 carries a
`.catch`, so the handler always responds: `status` is total. -/
structure OutP2 where
  status : ℕ
  msg : String
  row : Option RowP2
  records : List RowP2
  objects : Finset String
  events : List Ev
deriving DecidableEq

/-- The `values` array of part_002 `POST /api/upload` (server.js defaults
plus `created_by = req.user.id`). -/
def insValuesP2 (u : AuthUser) (body : BodySJ) (r : UploadRes) (nextId now : ℕ) : RowP2 :=
  { id := nextId
    product_name := strOr body.productName "Untitled Product"
    category := strOr body.category "Uncategorized"
    brand := strOr body.brand "Unknown"
    price := if body.price.truthy then jsParseFloat body.price else some 0
    stock := if body.stock.truthy then jsParseInt body.stock else some 0
    sku := strOr body.sku ("SKU-" ++ toString now)
    product_class := strOr body.productClass "Standard"
    sizes := strOr body.sizes "N/A"
    colors := strOr body.colors "N/A"
    description := strOr body.description "No description"
    image_url := r.secure_url
    cloudinary_id := r.public_id
    created_by := some u.id }

/-- `POST /api/upload` of `src/unnamed/part_002`.  Unlike server.js, the
compensating destroy in the catch block carries `.catch(...)`: its failure is
logged and swallowed, and the original insert error message is returned in
the 500 response either way. -/
def part002Upload (u : AuthUser) (filePresent : Bool) (body : BodySJ)
    (uploadResult : Except String UploadRes) (insertErr : Option String)
    (destroyOk : Bool) (records : List RowP2) (objects : Finset String)
    (nextId now : ℕ) : OutP2 :=
  if filePresent then
    match uploadResult with
    | .error m =>
        { status := 500, msg := m, row := none,
          records := records, objects := objects, events := [] }
    | .ok r =>
        let objects1 := insert r.public_id objects
        let row := insValuesP2 u body r nextId now
        match insertErr with
        | none =>
            { status := 201, msg := "Product uploaded successfully",
              row := some row, records := records ++ [row],
              objects := objects1, events := [Ev.upload r.public_id] }
        | some emsg =>
            { status := 500, msg := emsg, row := none, records := records,
              objects := if destroyOk then objects1.erase r.public_id else objects1,
              events := [Ev.upload r.public_id, Ev.destroy r.public_id] }
  else
    { status := 400, msg := "No image file uploaded", row := none,
      records := records, objects := objects, events := [] }

/-- The `values` array of part_002 `PUT /api/products/:id` (same falsy
fallbacks as server.js; `created_by` is not touched). -/
def updValuesP2 (body : BodySJ) (old : RowP2) (imageUrl cid : String) : RowP2 :=
  { id := old.id
    product_name := if body.productName.truthy then body.productName.toStr else old.product_name
    category := if body.category.truthy then body.category.toStr else old.category
    brand := if body.brand.truthy then body.brand.toStr else old.brand
    price := if body.price.truthy then jsParseFloat body.price else old.price
    stock := if body.stock.truthy then jsParseInt body.stock else old.stock
    sku := if body.sku.truthy then body.sku.toStr else old.sku
    product_class := if body.productClass.truthy then body.productClass.toStr else old.product_class
    sizes := if body.sizes.truthy then body.sizes.toStr else old.sizes
    colors := if body.colors.truthy then body.colors.toStr else old.colors
    description := if body.description.truthy then body.description.toStr else old.description
    image_url := imageUrl
    cloudinary_id := cid
    created_by := old.created_by }

/-- Database-update step of part_002 `PUT` with its catch block: the rollback
destroy of a newly uploaded image is `.catch`-swallowed, so the original
update error is always surfaced. -/
def persistP2 (id : ℕ) (body : BodySJ) (old : RowP2) (imageUrl cid : String)
    (updateErr : Option String) (rollbackDestroyOk : Bool)
    (records : List RowP2) (objects : Finset String) (evs : List Ev)
    (hasNew : Bool) (newPid : String) : OutP2 :=
  let row := updValuesP2 body old imageUrl cid
  match updateErr with
  | none =>
      { status := 200, msg := "Product updated successfully", row := some row,
        records := records.map (fun r => if r.id == id then row else r),
        objects := objects, events := evs }
  | some emsg =>
      if hasNew then
        { status := 500, msg := emsg, row := none, records := records,
          objects := if rollbackDestroyOk then objects.erase newPid else objects,
          events := evs ++ [Ev.destroy newPid] }
      else
        { status := 500, msg := emsg, row := none, records := records,
          objects := objects, events := evs }

/-- `PUT /api/products/:id` of `src/unnamed/part_002`: after the existence
check, the ownership check rejects a caller who is neither the row's creator
nor an admin before any upload or write is performed.  The old-image destroy
after a successful new upload is `.catch`-swallowed. -/
def part002Put (u : AuthUser) (id : ℕ) (body : BodySJ) (filePresent : Bool)
    (uploadResult : Except String UploadRes) (oldDestroyOk : Bool)
    (updateErr : Option String) (rollbackDestroyOk : Bool)
    (records : List RowP2) (objects : Finset String) : OutP2 :=
  match records.find? (fun r => r.id == id) with
  | none =>
      { status := 404, msg := "Product not found", row := none,
        records := records, objects := objects, events := [] }
  | some old =>
      if old.created_by ≠ some u.id ∧ u.role ≠ "admin" then
        { status := 403,
          msg := "You don't have permission to update this product",
          row := none, records := records, objects := objects, events := [] }
      else if filePresent then
        match uploadResult with
        | .error m =>
            { status := 500, msg := m, row := none,
              records := records, objects := objects, events := [] }
        | .ok r =>
            let objects1 := insert r.public_id objects
            let evs1 := [Ev.upload r.public_id]
            if old.cloudinary_id ≠ "" then
              persistP2 id body old r.secure_url r.public_id updateErr
                rollbackDestroyOk records
                (if oldDestroyOk then objects1.erase old.cloudinary_id else objects1)
                (evs1 ++ [Ev.destroy old.cloudinary_id]) true r.public_id
            else
              persistP2 id body old r.secure_url r.public_id updateErr
                rollbackDestroyOk records objects1 evs1 true r.public_id
      else
        persistP2 id body old old.image_url old.cloudinary_id updateErr
          rollbackDestroyOk records objects [] false ""

/-- `DELETE /api/products/:id` of `src/unnamed/part_002`: existence check,
then ownership check, then a `.catch`-swallowed Cloudinary destroy, then the
row deletion. -/
def part002Delete (u : AuthUser) (id : ℕ) (destroyOk : Bool)
    (rowDeleteErr : Option String) (records : List RowP2)
    (objects : Finset String) : OutP2 :=
  match records.find? (fun r => r.id == id) with
  | none =>
      { status := 404, msg := "Product not found", row := none,
        records := records, objects := objects, events := [] }
  | some row =>
      if row.created_by ≠ some u.id ∧ u.role ≠ "admin" then
        { status := 403,
          msg := "You don't have permission to delete this product",
          row := none, records := records, objects := objects, events := [] }
      else
        let objects1 :=
          if row.cloudinary_id ≠ "" then
            (if destroyOk then objects.erase row.cloudinary_id else objects)
          else objects
        let evs1 :=
          if row.cloudinary_id ≠ "" then [Ev.destroy row.cloudinary_id] else []
        match rowDeleteErr with
        | none =>
            { status := 200, msg := "Product deleted successfully", row := none,
              records := records.filter (fun r => r.id != id),
              objects := objects1,
              events := evs1 ++ [Ev.rowDelete (toString id)] }
        | some _ =>
            { status := 500, msg := "Failed to delete product", row := none,
              records := records, objects := objects1, events := evs1 }

/-- A row of the `products` table of `src/unnamed/part_001`: text id, an
ordered array of image URLs; fields that the update route can overwrite with
a JS `undefined`/`NaN` binding are optional. -/
structure RowP1 where
  id : String
  name : Option String
  description : Option String
  category : Option String
  price : Option ℚ
  stock : Option ℤ
  sku : Option String
  images : List String
deriving DecidableEq, Repr

/-- The request body of the part_001 product routes (base64 data-URIs and
existing URLs travel together in `images`; `none` = field omitted). -/
structure BodyP1 where
  name : JSValue
  description : JSValue
  category : JSValue
  price : JSValue
  stock : JSValue
  sku : JSValue
  images : Option (List String)
deriving DecidableEq, Repr

/-- Outcome of a part_001 handler (the `asyncHandler` wrapper forwards any
thrown error to the error middleware, so a response is always sent). -/
structure OutP1 where
  status : ℕ
  row : Option RowP1
  records : List RowP1
  objects : Finset String
  events : List Ev
deriving DecidableEq

/-- Result of the `i`-th Cloudinary upload attempt in a part_001 loop, as an
oracle list (`none` = that upload threw; out-of-range defaults to `none`). -/
def nthRes (ups : List (Option String)) (i : ℕ) : Option String :=
  ups.getD i none

/-- The URLs collected by a part_001 upload loop over `imgs`: one attempt per
image, failures logged and skipped, successes pushed in order. -/
def collectedUrls (imgs : List String) (ups : List (Option String)) : List String :=
  (List.range imgs.length).filterMap (fun i => nthRes ups i)

/-- JS `String.prototype.startsWith`, implemented structurally on the
character lists so that it evaluates in the kernel. -/
def isPrefixCharList : List Char → List Char → Bool
  | [], _ => true
  | _ :: _, [] => false
  | p :: ps, c :: cs => p = c && isPrefixCharList ps cs

/-- `s.startsWith(pre)` of JS. -/
def startsWithJS (s pre : String) : Bool := isPrefixCharList pre.toList s.toList

/-- JS `String.prototype.split` on a one-character separator, implemented
structurally on the character list. -/
def splitOnChar (sep : Char) : List Char → List (List Char)
  | [] => [[]]
  | c :: cs =>
      let r := splitOnChar sep cs
      if c = sep then [] :: r
      else
        match r with
        | [] => [[c]]
        | h :: t => (c :: h) :: t

/-- The Cloudinary public id part_001's delete route derives from a stored
secure URL: `brightnal_products/` plus the last URL segment without its
extension (`url.split('/')` then `filename.split('.')[0]`). -/
def publicIdOf (url : String) : String :=
  let parts := (splitOnChar '/' url.toList).map String.mk
  let filename := parts.getLastD ""
  "brightnal_products/" ++ (((splitOnChar '.' filename.toList).map String.mk).headD "")

/-- Object-store effect of a list of successful part_001 uploads. -/
def addUploads (urls : List String) (objects : Finset String) : Finset String :=
  urls.foldl (fun s u => insert (publicIdOf u) s) objects

/-- `POST /api/products` of `src/unnamed/part_001`.  Validation rejects a
missing/falsy name, category or sku and a price that is strictly
`undefined`; each image upload is attempted independently (failures are
logged and the image omitted); the insert is not compensated — if it throws,
the error middleware answers 500 and the uploaded images stay in the object
store. -/
def part001Create (body : BodyP1) (ups : List (Option String))
    (insertErr : Option String) (productId : String)
    (statusDb statusCloud : Bool) (records : List RowP1)
    (objects : Finset String) : OutP1 :=
  if statusDb then
    if statusCloud then
      if body.name.truthy ∧ body.category.truthy ∧
          body.price ≠ JSValue.undef ∧ body.sku.truthy then
        let imgs := body.images.getD []
        let urls := collectedUrls imgs ups
        let objects1 := addUploads urls objects
        let evs := urls.map (fun u => Ev.upload (publicIdOf u))
        let row : RowP1 :=
          { id := productId
            name := jsToDb body.name
            description := some (strOr body.description "")
            category := jsToDb body.category
            price := jsParseFloat body.price
            stock := some ((jsParseInt body.stock).getD 0)
            sku := jsToDb body.sku
            images := urls }
        match insertErr with
        | none =>
            { status := 201, row := some row, records := records ++ [row],
              objects := objects1, events := evs }
        | some _ =>
            { status := 500, row := none, records := records,
              objects := objects1, events := evs }
      else
        { status := 400, row := none, records := records, objects := objects,
          events := [] }
    else
      { status := 503, row := none, records := records, objects := objects,
        events := [] }
  else
    { status := 503, row := none, records := records, objects := objects,
      events := [] }

/-- `PUT /api/products/:id` of `src/unnamed/part_001`.  A non-empty incoming
image list is partitioned on the `data:` prefix: kept existing URLs first,
then freshly uploaded URLs; the UPDATE statement overwrites every structured
field with the supplied binding (no fallback to the stored value). -/
def part001Update (id : String) (body : BodyP1) (ups : List (Option String))
    (updateErr : Option String) (statusDb statusCloud : Bool)
    (records : List RowP1) (objects : Finset String) : OutP1 :=
  if statusDb then
    match records.find? (fun r => r.id == id) with
    | none =>
        { status := 404, row := none, records := records, objects := objects,
          events := [] }
    | some old =>
        let step : List String × List Ev × Finset String :=
          match body.images with
          | none => (old.images, ([] : List Ev), objects)
          | some l =>
              if l.isEmpty then (old.images, ([] : List Ev), objects)
              else
                let newImgs := l.filter (fun s => startsWithJS s "data:")
                let kept := l.filter (fun s => !startsWithJS s "data:")
                if ¬ newImgs.isEmpty ∧ statusCloud then
                  let fresh := collectedUrls newImgs ups
                  (kept ++ fresh, fresh.map (fun u => Ev.upload (publicIdOf u)),
                   addUploads fresh objects)
                else (kept, [], objects)
        let row : RowP1 :=
          { id := old.id
            name := jsToDb body.name
            description := jsToDb body.description
            category := jsToDb body.category
            price := jsParseFloat body.price
            stock := jsParseInt body.stock
            sku := jsToDb body.sku
            images := step.1 }
        match updateErr with
        | none =>
            { status := 200, row := some row,
              records := records.map (fun r => if r.id == id then row else r),
              objects := step.2.2, events := step.2.1 }
        | some _ =>
            { status := 500, row := none, records := records,
              objects := step.2.2, events := step.2.1 }
  else
    { status := 503, row := none, records := records, objects := objects,
      events := [] }

/-- Object-store effect of the per-image destroy loop of part_001's delete:
the `i`-th destroy succeeds when the oracle says so, and a failure is caught
and ignored. -/
def destroyFold : List String → List Bool → Finset String → Finset String
  | [], _, s => s
  | p :: ps, oks, s =>
      destroyFold ps oks.tail (if oks.headD true then s.erase p else s)

/-- `DELETE /api/products/:id` of `src/unnamed/part_001`: look the row up,
attempt one Cloudinary destroy per stored image (each in its own try/catch,
failures logged and ignored), then delete the row. -/
def part001Delete (id : String) (dOks : List Bool)
    (rowDeleteErr : Option String) (statusDb statusCloud : Bool)
    (records : List RowP1) (objects : Finset String) : OutP1 :=
  if statusDb then
    match records.find? (fun r => r.id == id) with
    | none =>
        { status := 404, row := none, records := records, objects := objects,
          events := [] }
    | some row =>
        let pids :=
          if ¬ row.images.isEmpty ∧ statusCloud then row.images.map publicIdOf
          else []
        let objects1 := destroyFold pids dOks objects
        let evs := pids.map Ev.destroy
        match rowDeleteErr with
        | none =>
            { status := 200, row := none,
              records := records.filter (fun r => r.id != id),
              objects := objects1, events := evs ++ [Ev.rowDelete id] }
        | some _ =>
            { status := 500, row := none, records := records,
              objects := objects1, events := evs }
  else
    { status := 503, row := none, records := records, objects := objects,
      events := [] }

/-! ### Helper lemmas -/

/-- A row whose key was filtered out is no longer findable: the lookup after
a SQL `DELETE ... WHERE id = $1` misses. -/
theorem find?_filter_key_ne {α β : Type} [DecidableEq β] (key : α → β) (b : β)
    (l : List α) :
    (l.filter (fun a => key a != b)).find? (fun a => key a == b) = none := by
  induction l with
  | nil => rfl
  | cons x t ih =>
      by_cases h : key x = b
      · simp [List.filter_cons, h, ih]
      · simp [List.filter_cons, List.find?, h, ih]

/-- The length of a filterMap is the number of elements mapped to `some`. -/
theorem length_filterMap_eq_countP {α β : Type} (f : α → Option β) (l : List α) :
    (l.filterMap f).length = l.countP (fun a => (f a).isSome) := by
  induction l with
  | nil => rfl
  | cons a t ih =>
      cases h : f a <;> simp [List.filterMap_cons, h, List.countP_cons, ih]

/-- A URL collected by a part_001 upload loop is one of the oracle's
successful results. -/
theorem mem_ups_of_mem_collectedUrls {imgs : List String}
    {ups : List (Option String)} {u : String}
    (h : u ∈ collectedUrls imgs ups) : some u ∈ ups := by
  rcases List.mem_filterMap.mp h with ⟨i, _, hres⟩
  simp only [nthRes, List.getD] at hres
  cases hg : ups.get? i with
  | none => rw [hg] at hres; simp at hres
  | some v =>
      rw [hg] at hres
      simp only [Option.getD_some] at hres
      rw [← hres]
      exact List.get?_mem hg

/-- No destroy occurs in a trace of uploads. -/
theorem destroys_upload_map (f : String → String) (urls : List String) :
    destroys (urls.map fun u => Ev.upload (f u)) = [] := by
  induction urls with
  | nil => rfl
  | cons u us ih => simp [destroys, List.filterMap_cons]

/-! ### Concrete fixtures used by witnesses and counterexamples -/

/-- A server.js request body with every structured field omitted. -/
def bodyAllUndef : BodySJ :=
  ⟨.undef, .undef, .undef, .undef, .undef, .undef, .undef, .undef, .undef, .undef⟩

/-- A server.js update body that supplies only `price = "0"` (a truthy
string). -/
def bodyPriceZero : BodySJ := { bodyAllUndef with price := JSValue.str "0" }

/-- A persisted server.js product row. -/
def rowSJ1 : RowSJ :=
  { id := 1, product_name := "Widget", category := "Tools", brand := "Acme",
    price := some 5, stock := some 3, sku := "SKU-1",
    product_class := "Standard", sizes := "N/A", colors := "N/A",
    description := "d", image_url := "https://img.example/old.jpg",
    cloudinary_id := "old1" }

/-- A persisted part_002 product row created by user 1. -/
def rowP2a : RowP2 :=
  { id := 1, product_name := "Widget", category := "Tools", brand := "Acme",
    price := some 5, stock := some 3, sku := "SKU-1",
    product_class := "Standard", sizes := "N/A", colors := "N/A",
    description := "d", image_url := "https://img.example/old.jpg",
    cloudinary_id := "old1", created_by := some 1 }

/-- An authenticated caller who is not user 1 and holds no admin role. -/
def userOther : AuthUser := { id := 2, role := "customer" }

/-- A persisted part_001 product row with one stored image. -/
def rowP1a : RowP1 :=
  { id := "p1", name := some "Widget",
    description := some "A nice description", category := some "Tools",
    price := some 5, stock := some 3, sku := some "SKU-1",
    images := ["https://old.example/a.jpg"] }

/-- A part_001 create body with one new base64 image. -/
def bodyC1 : BodyP1 :=
  { name := .str "W", description := .undef, category := .str "C",
    price := .str "5", stock := .str "3", sku := .str "S",
    images := some ["data:image/png;base64,AAA"] }

/-- A part_001 create body whose only missing required input is `price`. -/
def bodyC3 : BodyP1 := { bodyC1 with price := .undef, images := none }

/-- A part_001 update body keeping one URL and adding one new image. -/
def bodyC4 : BodyP1 :=
  { bodyC1 with
    images := some ["https://keep.example/k.jpg", "data:image/png;base64,AAA"] }

/-- A part_001 update body that omits `description` but supplies every
NOT NULL column. -/
def bodyC5 : BodyP1 := { bodyC1 with images := none }

/-- A server.js update body carrying the falsy values `price = 0` (the
number) and `productName = ""`. -/
def bodyFalsy : BodySJ :=
  { bodyAllUndef with price := JSValue.num 0, productName := JSValue.str "" }

/-! ### C1 — create-operation compensation on insert failure -/

/-- C1 counterexample: in the multi-image create (`part_001`,
`POST /api/products`), one image upload succeeds (K = 1) and the insert
fails, yet zero compensating deletes are attempted — not "exactly K", and
the uploaded image stays in the object store. -/
theorem c1_no_compensation_in_multi_create :
    collectedUrls ["data:image/png;base64,AAA"]
        [some "https://res.cloudinary.com/x/brightnal_products/n1.jpg"]
      = ["https://res.cloudinary.com/x/brightnal_products/n1.jpg"] ∧
    (part001Create bodyC1
        [some "https://res.cloudinary.com/x/brightnal_products/n1.jpg"]
        (some "insert failed") "prod_1" true true [] ∅).status = 500 ∧
    destroys (part001Create bodyC1
        [some "https://res.cloudinary.com/x/brightnal_products/n1.jpg"]
        (some "insert failed") "prod_1" true true [] ∅).events = [] ∧
    "brightnal_products/n1" ∈ (part001Create bodyC1
        [some "https://res.cloudinary.com/x/brightnal_products/n1.jpg"]
        (some "insert failed") "prod_1" true true [] ∅).objects := by
  refine ⟨rfl, rfl, rfl, ?_⟩
  decide

/-- C1 (amended): in the single-image create revisions, an insert failure
after the one successful upload triggers exactly one compensating delete of
the uploaded storageId before the 500 is sent; in the auth revision the
delete error is swallowed and the original insert error surfaced either way,
while in the base revision a failing delete crashes the handler so that the
delete error is still never surfaced in place of the insert error.  In the
multi-image create revision no compensating deletes are attempted at all. -/
theorem c1_create_compensation_amended :
    (∀ (body : BodySJ) (r : UploadRes) (emsg : String) (records : List RowSJ)
        (objects : Finset String) (nextId now : ℕ),
        destroys (serverJsUpload true body (.ok r) (some emsg) true records
            objects nextId now).events = [r.public_id] ∧
        (serverJsUpload true body (.ok r) (some emsg) true records objects
            nextId now).status = some 500 ∧
        (serverJsUpload true body (.ok r) (some emsg) true records objects
            nextId now).msg = emsg) ∧
    (∀ (body : BodySJ) (r : UploadRes) (emsg : String) (records : List RowSJ)
        (objects : Finset String) (nextId now : ℕ),
        destroys (serverJsUpload true body (.ok r) (some emsg) false records
            objects nextId now).events = [r.public_id] ∧
        (serverJsUpload true body (.ok r) (some emsg) false records objects
            nextId now).status = none) ∧
    (∀ (u : AuthUser) (body : BodySJ) (r : UploadRes) (emsg : String)
        (dOk : Bool) (records : List RowP2) (objects : Finset String)
        (nextId now : ℕ),
        destroys (part002Upload u true body (.ok r) (some emsg) dOk records
            objects nextId now).events = [r.public_id] ∧
        (part002Upload u true body (.ok r) (some emsg) dOk records objects
            nextId now).status = 500 ∧
        (part002Upload u true body (.ok r) (some emsg) dOk records objects
            nextId now).msg = emsg) ∧
    (∀ (body : BodyP1) (ups : List (Option String)) (emsg pid : String)
        (records : List RowP1) (objects : Finset String),
        body.name.truthy = true → body.category.truthy = true →
        body.price ≠ JSValue.undef → body.sku.truthy = true →
        destroys (part001Create body ups (some emsg) pid true true records
            objects).events = [] ∧
        (part001Create body ups (some emsg) pid true true records
            objects).status = 500) := by
  refine ⟨fun body r emsg records objects nextId now => ⟨rfl, rfl, rfl⟩,
    fun body r emsg records objects nextId now => ⟨rfl, rfl⟩,
    fun u body r emsg dOk records objects nextId now => ⟨rfl, rfl, rfl⟩,
    fun body ups emsg pid records objects hn hc hp hs => ?_⟩
  simp only [part001Create, if_pos (And.intro hn (And.intro hc (And.intro hp hs))),
    if_true]
  exact ⟨destroys_upload_map _ _, trivial⟩

/-- C1 witness: the amended theorem applied at a concrete multi-image create
whose single upload succeeded and whose insert failed. -/
theorem c1_create_compensation_witness :
    destroys (part001Create bodyC1
        [some "https://res.cloudinary.com/x/brightnal_products/n2.jpg"]
        (some "duplicate key") "prod_9" true true [] ∅).events = [] ∧
    (part001Create bodyC1
        [some "https://res.cloudinary.com/x/brightnal_products/n2.jpg"]
        (some "duplicate key") "prod_9" true true [] ∅).status = 500 := by
  exact c1_create_compensation_amended.2.2.2 bodyC1
    [some "https://res.cloudinary.com/x/brightnal_products/n2.jpg"]
    "duplicate key" "prod_9" [] ∅ rfl rfl (by decide) rfl

/-! ### C2 — single-image update compensation -/

/-- C2 counterexample: server.js `PUT /api/products/:id` at a concrete state
where a new upload succeeded and the database update then failed — the new
image is rolled back, but the original image `old1` is NOT still present in
the object store, because the handler destroyed it right after the new
upload succeeded, before attempting to persist. -/
theorem c2_original_image_not_untouched :
    (serverJsPut 1 bodyAllUndef true (Except.ok ⟨"https://new", "new1"⟩) true
        (some "db down") true [rowSJ1] {"old1"}).status = some 500 ∧
    "old1" ∉ (serverJsPut 1 bodyAllUndef true (Except.ok ⟨"https://new", "new1"⟩)
        true (some "db down") true [rowSJ1] {"old1"}).objects ∧
    "old1" ∈ ({"old1"} : Finset String) := by
  refine ⟨rfl, ?_, by decide⟩
  decide

/-- C2 (amended): if the record update fails after a new single-image upload
succeeded, the newly uploaded image is deleted as compensation and the
record row is left unchanged, but the originally stored image is NOT left in
the object store: it was already destroyed immediately after the new upload
succeeded, before the persist attempt, so the surviving row references a
destroyed object. -/
theorem c2_update_compensation_amended (id : ℕ) (body : BodySJ) (r : UploadRes)
    (emsg : String) (records : List RowSJ) (objects : Finset String)
    (old : RowSJ)
    (hfind : records.find? (fun x => x.id == id) = some old)
    (hcid : old.cloudinary_id ≠ "") :
    (serverJsPut id body true (.ok r) true (some emsg) true records
        objects).status = some 500 ∧
    (serverJsPut id body true (.ok r) true (some emsg) true records
        objects).msg = emsg ∧
    (serverJsPut id body true (.ok r) true (some emsg) true records
        objects).records = records ∧
    r.public_id ∉ (serverJsPut id body true (.ok r) true (some emsg) true
        records objects).objects ∧
    old.cloudinary_id ∉ (serverJsPut id body true (.ok r) true (some emsg)
        true records objects).objects ∧
    destroys (serverJsPut id body true (.ok r) true (some emsg) true records
        objects).events = [old.cloudinary_id, r.public_id] := by
  simp only [serverJsPut, hfind, if_pos hcid, if_true, persistSJ]
  refine ⟨trivial, trivial, trivial, Finset.not_mem_erase _ _, ?_, by simp [destroys]⟩
  intro hmem
  exact Finset.not_mem_erase old.cloudinary_id (insert r.public_id objects)
    (Finset.mem_of_mem_erase hmem)

/-- C2 witness: the amended theorem at the concrete failing update. -/
theorem c2_update_compensation_witness :
    (serverJsPut 1 bodyAllUndef true (Except.ok ⟨"https://new", "new1"⟩) true
        (some "db down") true [rowSJ1] {"old1"}).records = [rowSJ1] ∧
    "new1" ∉ (serverJsPut 1 bodyAllUndef true (Except.ok ⟨"https://new", "new1"⟩)
        true (some "db down") true [rowSJ1] {"old1"}).objects := by
  exact ⟨(c2_update_compensation_amended 1 bodyAllUndef ⟨"https://new", "new1"⟩
      "db down" [rowSJ1] {"old1"} rowSJ1 rfl (by decide)).2.2.1,
    (c2_update_compensation_amended 1 bodyAllUndef ⟨"https://new", "new1"⟩
      "db down" [rowSJ1] {"old1"} rowSJ1 rfl (by decide)).2.2.2.1⟩

/-! ### C3 — price/stock coercion in the create operation -/

/-- C3 counterexample: the multi-image create rejects a request whose only
missing input is `price` (name, category, sku all present) with a 400
validation error — the same body with a price succeeds with 201 — so a
create request CAN be rejected solely because price is absent. -/
theorem c3_absent_price_rejected :
    (part001Create bodyC3 [] none "prod_2" true true [] ∅).status = 400 ∧
    (part001Create { bodyC3 with price := JSValue.str "5" } [] none "prod_2"
        true true [] ∅).status = 201 := by
  exact ⟨rfl, rfl⟩

/-- C3 (amended): in the single-image create, price and stock default to `0`
when absent and the request is not rejected for their absence; but truthy
inputs are parsed without clamping, so a negative price string is stored
negative and a truthy unparsable string is stored as NaN rather than `0`.
In the multi-image create, an absent price rejects the request with 400
while an absent stock defaults to `0`. -/
theorem c3_price_stock_coercion_amended :
    (∀ (body : BodySJ) (r : UploadRes) (records : List RowSJ)
        (objects : Finset String) (nextId now : ℕ),
        body.price = JSValue.undef → body.stock = JSValue.undef →
        (serverJsUpload true body (.ok r) none true records objects nextId
            now).status = some 201 ∧
        ∃ v, (serverJsUpload true body (.ok r) none true records objects
            nextId now).row = some v ∧ v.price = some 0 ∧ v.stock = some 0) ∧
    (∀ (body : BodyP1) (ups : List (Option String)) (ie : Option String)
        (pid : String) (records : List RowP1) (objects : Finset String),
        body.name.truthy = true → body.category.truthy = true →
        body.sku.truthy = true → body.price = JSValue.undef →
        (part001Create body ups ie pid true true records objects).status
          = 400) ∧
    (∀ (body : BodyP1) (ups : List (Option String)) (pid : String)
        (records : List RowP1) (objects : Finset String),
        body.name.truthy = true → body.category.truthy = true →
        body.sku.truthy = true → body.price ≠ JSValue.undef →
        body.stock = JSValue.undef →
        ∃ v, (part001Create body ups none pid true true records
            objects).row = some v ∧ v.stock = some 0) ∧
    (∀ (body : BodySJ) (r : UploadRes) (records : List RowSJ)
        (objects : Finset String) (nextId now : ℕ),
        body.price = JSValue.str "-5" →
        ∃ v, (serverJsUpload true body (.ok r) none true records objects
            nextId now).row = some v ∧ v.price = some (-5)) ∧
    (∀ (body : BodySJ) (r : UploadRes) (records : List RowSJ)
        (objects : Finset String) (nextId now : ℕ),
        body.price = JSValue.str "abc" →
        ∃ v, (serverJsUpload true body (.ok r) none true records objects
            nextId now).row = some v ∧ v.price = none) := by
  refine ⟨?_, ?_, ?_, ?_, ?_⟩
  · intro body r records objects nextId now hp hs
    refine ⟨rfl, insValuesSJ body r nextId now, rfl, ?_, ?_⟩
    · simp [insValuesSJ, hp, JSValue.truthy]
    · simp [insValuesSJ, hs, JSValue.truthy]
  · intro body ups ie pid records objects hn hc hs hp
    simp [part001Create, hp]
  · intro body ups pid records objects hn hc hs hp hstock
    simp only [part001Create, if_pos (And.intro hn (And.intro hc
      (And.intro hp hs))), if_true]
    refine ⟨_, rfl, ?_⟩
    simp [hstock, jsParseInt]
  · intro body r records objects nextId now hp
    refine ⟨insValuesSJ body r nextId now, rfl, ?_⟩
    simp only [insValuesSJ, hp]
    decide
  · intro body r records objects nextId now hp
    refine ⟨insValuesSJ body r nextId now, rfl, ?_⟩
    simp only [insValuesSJ, hp]
    decide

/-- C3 witness: the amended theorem at concrete bodies — a server.js create
with price and stock both absent succeeds with both stored as 0, and a
multi-image create with only price absent is rejected with 400. -/
theorem c3_price_stock_coercion_witness :
    (serverJsUpload true bodyAllUndef (.ok ⟨"https://new", "new1"⟩) none true
        [] ∅ 7 1000).status = some 201 ∧
    (part001Create bodyC3 [] (some "unreached") "prod_3" true true []
        ∅).status = 400 := by
  refine ⟨(c3_price_stock_coercion_amended.1 bodyAllUndef ⟨"https://new", "new1"⟩
    [] ∅ 7 1000 rfl rfl).1, ?_⟩
  exact c3_price_stock_coercion_amended.2.1 bodyC3 [] (some "unreached")
    "prod_3" [] ∅ rfl rfl rfl rfl

/-! ### C4 — multi-image update image partition -/

/-- C4 (confirmed): for a multi-image update with a non-empty incoming image
list, the persisted image set is exactly the incoming non-data-URI entries
(kept verbatim, in incoming order) followed by the successfully uploaded
URLs of the incoming data-URI entries (in incoming order); the updated row
is the one found under the identifier after the update, and any previously
stored URL that is in neither the incoming list nor the upload results is
gone from the persisted record. -/
theorem c4_multi_image_update (id : String) (body : BodyP1) (l : List String)
    (ups : List (Option String)) (records : List RowP1)
    (objects : Finset String) (old : RowP1)
    (hfind : records.find? (fun r => r.id == id) = some old)
    (himg : body.images = some l) (hne : l ≠ []) :
    (part001Update id body ups none true true records objects).status = 200 ∧
    ∃ v, (part001Update id body ups none true true records objects).row
        = some v ∧
      v.images = l.filter (fun s => !startsWithJS s "data:")
          ++ collectedUrls (l.filter (fun s => startsWithJS s "data:")) ups ∧
      (∀ rr ∈ (part001Update id body ups none true true records
          objects).records, rr.id = id → rr = v) ∧
      (∀ u, u ∈ old.images → u ∉ l → some u ∉ ups → u ∉ v.images) := by
  have hle : l.isEmpty = false := by
    cases l with
    | nil => exact absurd rfl hne
    | cons a t => rfl
  by_cases hni : (l.filter (fun s => startsWithJS s "data:")).isEmpty
  · have h0 : l.filter (fun s => startsWithJS s "data:") = [] := by
      cases hf : l.filter (fun s => startsWithJS s "data:") with
      | nil => rfl
      | cons a t => rw [hf] at hni; exact absurd hni (by simp)
    simp only [part001Update, hfind, himg, hle, h0, if_true, if_false,
      Bool.false_eq_true, List.isEmpty_nil, not_true, false_and, if_neg,
      collectedUrls, List.length_nil, List.range_zero, List.filterMap_nil,
      List.append_nil]
    refine ⟨trivial, _, rfl, rfl, ?_, ?_⟩
    · intro rr hrr hid
      rcases List.mem_map.mp hrr with ⟨orig, _, heq⟩
      by_cases horig : orig.id == id
      · rw [if_pos horig] at heq; exact heq.symm
      · rw [if_neg horig] at heq
        rw [← heq] at hid
        exact absurd (beq_iff_eq.mpr hid) horig
    · intro u hu hul hups hmem
      exact hul (List.mem_of_mem_filter hmem)
  · simp only [part001Update, hfind, himg, hle, Bool.false_eq_true,
      if_false, if_true, hni, not_false_iff, true_and, if_pos]
    refine ⟨_, rfl, rfl, ?_, ?_⟩
    · intro rr hrr hid
      rcases List.mem_map.mp hrr with ⟨orig, _, heq⟩
      by_cases horig : orig.id == id
      · rw [if_pos horig] at heq; exact heq.symm
      · rw [if_neg horig] at heq
        rw [← heq] at hid
        exact absurd (beq_iff_eq.mpr hid) horig
    · intro u hu hul hups hmem
      rcases List.mem_append.mp hmem with hk | hf
      · exact hul (List.mem_of_mem_filter hk)
      · exact hups (mem_ups_of_mem_collectedUrls hf)

/-- C4 witness: a concrete update keeping one URL, uploading one data-URI,
and dropping the previously stored URL. -/
theorem c4_multi_image_update_witness :
    (part001Update "p1" bodyC4
        [some "https://res.cloudinary.com/x/brightnal_products/n1.jpg"] none
        true true [rowP1a] ∅).status = 200 ∧
    ∃ v, (part001Update "p1" bodyC4
        [some "https://res.cloudinary.com/x/brightnal_products/n1.jpg"] none
        true true [rowP1a] ∅).row = some v ∧
      v.images = ["https://keep.example/k.jpg",
        "https://res.cloudinary.com/x/brightnal_products/n1.jpg"] ∧
      "https://old.example/a.jpg" ∉ v.images := by
  have h := c4_multi_image_update "p1" bodyC4
    ["https://keep.example/k.jpg", "data:image/png;base64,AAA"]
    [some "https://res.cloudinary.com/x/brightnal_products/n1.jpg"]
    [rowP1a] ∅ rowP1a rfl rfl (by decide)
  rcases h with ⟨hst, v, hrow, himgs, _, habs⟩
  refine ⟨hst, v, hrow, ?_, ?_⟩
  · rw [himgs]; decide
  · exact habs _ (by decide) (by decide) (by decide)

/-! ### C5 — omitted structured fields on update -/

/-- C5 counterexample: a multi-image update that omits `description` (and
supplies every NOT NULL column) succeeds with 200, yet the persisted
description is NULL, not the pre-update value `some "A nice description"` —
an omitted field does not keep its stored value in this revision. -/
theorem c5_omitted_field_overwritten :
    (part001Update "p1" bodyC5 [] none true true [rowP1a] ∅).status = 200 ∧
    ((part001Update "p1" bodyC5 [] none true true [rowP1a]
        ∅).row.map RowP1.description) = some none ∧
    rowP1a.description = some "A nice description" := by
  exact ⟨rfl, rfl, rfl⟩

/-- C5 (amended): in the single-image update revisions an omitted structured
field keeps its stored value (the `||` fallback), and with no new file the
image fields are untouched; in the multi-image update revision the UPDATE
statement overwrites every structured field with the supplied binding, so an
omitted text field is stored as NULL and an omitted numeric field as NaN
instead of being retained. -/
theorem c5_omitted_fields_amended :
    (∀ (id : ℕ) (body : BodySJ) (upl : Except String UploadRes)
        (records : List RowSJ) (objects : Finset String) (old : RowSJ),
        records.find? (fun r => r.id == id) = some old →
        (serverJsPut id body false upl true none true records
            objects).status = some 200 ∧
        ∃ v, (serverJsPut id body false upl true none true records
            objects).row = some v ∧
          (body.productName = JSValue.undef → v.product_name = old.product_name) ∧
          (body.category = JSValue.undef → v.category = old.category) ∧
          (body.brand = JSValue.undef → v.brand = old.brand) ∧
          (body.price = JSValue.undef → v.price = old.price) ∧
          (body.stock = JSValue.undef → v.stock = old.stock) ∧
          (body.sku = JSValue.undef → v.sku = old.sku) ∧
          (body.productClass = JSValue.undef → v.product_class = old.product_class) ∧
          (body.sizes = JSValue.undef → v.sizes = old.sizes) ∧
          (body.colors = JSValue.undef → v.colors = old.colors) ∧
          (body.description = JSValue.undef → v.description = old.description) ∧
          v.image_url = old.image_url ∧ v.cloudinary_id = old.cloudinary_id) ∧
    (∀ (id : String) (body : BodyP1) (ups : List (Option String))
        (records : List RowP1) (objects : Finset String) (old : RowP1),
        records.find? (fun r => r.id == id) = some old →
        ∃ v, (part001Update id body ups none true true records objects).row
            = some v ∧
          (body.description = JSValue.undef → v.description = none) ∧
          (body.name = JSValue.undef → v.name = none) ∧
          (body.price = JSValue.undef → v.price = none)) := by
  constructor
  · intro id body upl records objects old hfind
    simp only [serverJsPut, hfind, Bool.false_eq_true, if_false, persistSJ]
    refine ⟨trivial, _, rfl, ?_, ?_, ?_, ?_, ?_, ?_, ?_, ?_, ?_, ?_, rfl, rfl⟩
      <;> intro h <;> simp [updValuesSJ, h, JSValue.truthy]
  · intro id body ups records objects old hfind
    simp only [part001Update, hfind, if_true]
    refine ⟨_, rfl, ?_, ?_, ?_⟩ <;> intro h <;> simp [jsToDb, jsParseFloat, h]

/-- C5 witness: the amended theorem at a concrete all-omitted server.js
update (fields retained) and at a concrete multi-image update omitting only
`description` (field nulled). -/
theorem c5_omitted_fields_witness :
    ((serverJsPut 1 bodyAllUndef false (Except.error "unused") true none true
        [rowSJ1] ∅).status = some 200 ∧
      ∃ v, (serverJsPut 1 bodyAllUndef false (Except.error "unused") true none
          true [rowSJ1] ∅).row = some v ∧ v.product_name = "Widget") ∧
    ∃ w, (part001Update "p1" bodyC5 [] none true true [rowP1a] ∅).row
        = some w ∧ w.description = none := by
  constructor
  · obtain ⟨hst, v, hrow, hpn, _⟩ :=
      c5_omitted_fields_amended.1 1 bodyAllUndef (Except.error "unused")
        [rowSJ1] ∅ rowSJ1 rfl
    exact ⟨hst, v, hrow, by rw [hpn rfl]; rfl⟩
  · obtain ⟨w, hrow, hdesc, _⟩ :=
      c5_omitted_fields_amended.2 "p1" bodyC5 [] [rowP1a] ∅ rowP1a rfl
    exact ⟨w, hrow, hdesc rfl⟩

/-! ### C6 — authorization in the auth-enabled revision -/

/-- C6 (confirmed): in part_002, an authenticated caller who is neither the
product's creator nor an admin gets 403 from both update and delete on an
existing product, with the record store, the object store and the event
trace (no upload, destroy or row deletion) left completely unchanged. -/
theorem c6_forbidden_leaves_state_unchanged (u : AuthUser) :
    (∀ (id : ℕ) (body : BodySJ) (fp : Bool)
        (upl : Except String UploadRes) (odk : Bool) (uerr : Option String)
        (rdk : Bool) (records : List RowP2) (objects : Finset String)
        (old : RowP2),
        records.find? (fun r => r.id == id) = some old →
        old.created_by ≠ some u.id → u.role ≠ "admin" →
        (part002Put u id body fp upl odk uerr rdk records objects).status
            = 403 ∧
        (part002Put u id body fp upl odk uerr rdk records objects).records
            = records ∧
        (part002Put u id body fp upl odk uerr rdk records objects).objects
            = objects ∧
        (part002Put u id body fp upl odk uerr rdk records objects).events
            = []) ∧
    (∀ (id : ℕ) (dok : Bool) (rde : Option String) (records : List RowP2)
        (objects : Finset String) (old : RowP2),
        records.find? (fun r => r.id == id) = some old →
        old.created_by ≠ some u.id → u.role ≠ "admin" →
        (part002Delete u id dok rde records objects).status = 403 ∧
        (part002Delete u id dok rde records objects).records = records ∧
        (part002Delete u id dok rde records objects).objects = objects ∧
        (part002Delete u id dok rde records objects).events = []) := by
  constructor
  · intro id body fp upl odk uerr rdk records objects old hfind hown hrole
    simp only [part002Put, hfind, if_pos (And.intro hown hrole)]
    exact ⟨trivial, trivial, trivial, trivial⟩
  · intro id dok rde records objects old hfind hown hrole
    simp only [part002Delete, hfind, if_pos (And.intro hown hrole)]
    exact ⟨trivial, trivial, trivial, trivial⟩

/-- C6 witness: user 2 with role `customer` tries to update and delete the
product created by user 1. -/
theorem c6_forbidden_witness :
    (part002Put userOther 1 bodyAllUndef false (Except.error "unused") true
        none true [rowP2a] {"old1"}).status = 403 ∧
    (part002Put userOther 1 bodyAllUndef false (Except.error "unused") true
        none true [rowP2a] {"old1"}).records = [rowP2a] ∧
    (part002Delete userOther 1 true none [rowP2a] {"old1"}).status = 403 ∧
    (part002Delete userOther 1 true none [rowP2a] {"old1"}).objects
        = {"old1"} := by
  have h1 := (c6_forbidden_leaves_state_unchanged userOther).1 1 bodyAllUndef
    false (Except.error "unused") true none true [rowP2a] {"old1"} rowP2a rfl
    (by decide) (by decide)
  have h2 := (c6_forbidden_leaves_state_unchanged userOther).2 1 true none
    [rowP2a] {"old1"} rowP2a rfl (by decide) (by decide)
  exact ⟨h1.1, h1.2.1, h2.1, h2.2.2.1⟩

/-! ### C7 — partial upload failures never abort the multi-image create -/

/-- C7 (confirmed): for any pattern of individual upload outcomes, the
multi-image create still inserts the product (201, appended to the record
store), and the returned product's image URL list has exactly one URL per
successful upload — its length is the number of payloads whose upload
succeeded, never more than the number of payloads. -/
theorem c7_upload_failure_does_not_abort (body : BodyP1) (l : List String)
    (ups : List (Option String)) (pid : String) (records : List RowP1)
    (objects : Finset String)
    (hn : body.name.truthy = true) (hc : body.category.truthy = true)
    (hs : body.sku.truthy = true) (hp : body.price ≠ JSValue.undef)
    (himg : body.images = some l) :
    (part001Create body ups none pid true true records objects).status
        = 201 ∧
    ∃ v, (part001Create body ups none pid true true records objects).row
        = some v ∧
      (part001Create body ups none pid true true records objects).records
        = records ++ [v] ∧
      v.images.length
        = (List.range l.length).countP (fun i => (nthRes ups i).isSome) ∧
      v.images.length ≤ l.length := by
  simp only [part001Create, if_pos (And.intro hn (And.intro hc
    (And.intro hp hs))), if_true, himg, Option.getD_some]
  refine ⟨trivial, _, rfl, rfl, ?_, ?_⟩
  · exact length_filterMap_eq_countP _ _
  · calc (collectedUrls l ups).length
        = (List.range l.length).countP (fun i => (nthRes ups i).isSome) :=
          length_filterMap_eq_countP _ _
      _ ≤ (List.range l.length).length := List.countP_le_length _
      _ = l.length := List.length_range l.length

/-- C7 witness: three payloads, the middle upload fails — the create still
returns 201 and the stored image list has exactly the two successful URLs. -/
theorem c7_upload_failure_witness :
    (part001Create
        { bodyC1 with images := some ["data:a", "data:b", "data:c"] }
        [some "https://u1", none, some "https://u3"] none "prod_4" true true
        [] ∅).status = 201 ∧
    ∃ v, (part001Create
        { bodyC1 with images := some ["data:a", "data:b", "data:c"] }
        [some "https://u1", none, some "https://u3"] none "prod_4" true true
        [] ∅).row = some v ∧ v.images.length = 2 ∧ v.images.length ≤ 3 := by
  obtain ⟨hst, v, hrow, _, hlen, hle⟩ := c7_upload_failure_does_not_abort
    { bodyC1 with images := some ["data:a", "data:b", "data:c"] }
    ["data:a", "data:b", "data:c"] [some "https://u1", none, some "https://u3"]
    "prod_4" [] ∅ rfl rfl rfl (by decide) rfl
  refine ⟨hst, v, hrow, ?_, hle⟩
  rw [hlen]
  decide

/-! ### C8 — delete is idempotent at the interface -/

/-- After part_001's row deletion, the id is no longer findable. -/
theorem find?_filter_ne_p1 (id : String) (l : List RowP1) :
    (l.filter (fun r => r.id != id)).find? (fun r => r.id == id) = none :=
  find?_filter_key_ne (fun r => r.id) id l

/-- After server.js's row deletion, the id is no longer findable. -/
theorem find?_filter_ne_sj (id : ℕ) (l : List RowSJ) :
    (l.filter (fun r => r.id != id)).find? (fun r => r.id == id) = none :=
  find?_filter_key_ne (fun r => r.id) id l

/-- C8 (confirmed): in both the multi-image and the single-image revisions,
once a delete succeeds, a second delete of the same identifier against the
resulting record store answers 404 "Product not found" — whatever the
destroy and row-deletion oracles of the second call do. -/
theorem c8_delete_idempotent :
    (∀ (id : String) (dOks : List Bool) (rde : Option String) (sc : Bool)
        (records : List RowP1) (objects : Finset String),
        (part001Delete id dOks rde true sc records objects).status = 200 →
        ∀ (dOks2 : List Bool) (rde2 : Option String) (sc2 : Bool)
          (objects2 : Finset String),
          (part001Delete id dOks2 rde2 true sc2
              (part001Delete id dOks rde true sc records objects).records
              objects2).status = 404) ∧
    (∀ (id : ℕ) (dok : Bool) (rde : Option String) (records : List RowSJ)
        (objects : Finset String),
        (serverJsDelete id dok rde records objects).status = some 200 →
        ∀ (dok2 : Bool) (rde2 : Option String) (objects2 : Finset String),
          (serverJsDelete id dok2 rde2
              (serverJsDelete id dok rde records objects).records
              objects2).status = some 404) := by
  constructor
  · intro id dOks rde sc records objects h200 dOks2 rde2 sc2 objects2
    cases hf : records.find? (fun r => r.id == id) with
    | none => simp [part001Delete, hf] at h200
    | some row =>
        cases rde with
        | some m => simp [part001Delete, hf] at h200
        | none =>
            have hrec : (part001Delete id dOks none true sc records
                objects).records = records.filter (fun r => r.id != id) := by
              simp only [part001Delete, if_true, hf]
            rw [hrec]
            simp only [part001Delete, if_true, find?_filter_ne_p1]
  · intro id dok rde records objects h200 dok2 rde2 objects2
    cases hf : records.find? (fun r => r.id == id) with
    | none => simp [serverJsDelete, hf] at h200
    | some row =>
        by_cases hcid : row.cloudinary_id ≠ ""
        · cases dok with
          | false => simp [serverJsDelete, hf, hcid] at h200
          | true =>
              cases rde with
              | some m => simp [serverJsDelete, hf, hcid] at h200
              | none =>
                  have hrec : (serverJsDelete id true none records
                      objects).records
                      = records.filter (fun r => r.id != id) := by
                    simp only [serverJsDelete, hf, if_pos hcid, if_true]
                  rw [hrec]
                  simp only [serverJsDelete, find?_filter_ne_sj]
        · cases rde with
          | some m => simp [serverJsDelete, hf, hcid] at h200
          | none =>
              have hrec : (serverJsDelete id dok none records objects).records
                  = records.filter (fun r => r.id != id) := by
                simp only [serverJsDelete, hf, if_neg hcid]
              rw [hrec]
              simp only [serverJsDelete, find?_filter_ne_sj]

/-- C8 witness: delete the only product, then delete it again — the second
call answers 404 in both revisions. -/
theorem c8_delete_idempotent_witness :
    (part001Delete "p1" [] none true true
        (part001Delete "p1" [true] none true true [rowP1a] ∅).records
        ∅).status = 404 ∧
    (serverJsDelete 1 false none
        (serverJsDelete 1 true none [rowSJ1] {"old1"}).records
        ∅).status = some 404 := by
  refine ⟨c8_delete_idempotent.1 "p1" [true] none true [rowP1a] ∅ ?_ [] none
      true ∅,
    c8_delete_idempotent.2 1 true none [rowSJ1] {"old1"} ?_ false none ∅⟩
  · rfl
  · rfl

/-! ### C9 — image deletion before row deletion in the delete operation -/

/-- C9 counterexample: in server.js, the single Cloudinary destroy fails and
the delete answers 500 with the record row still present — an image-deletion
failure DOES prevent the record row from being deleted in this revision. -/
theorem c9_destroy_failure_blocks_row_delete :
    (serverJsDelete 1 false none [rowSJ1] {"old1"}).status = some 500 ∧
    (serverJsDelete 1 false none [rowSJ1] {"old1"}).records = [rowSJ1] ∧
    destroys (serverJsDelete 1 false none [rowSJ1] {"old1"}).events
        = ["old1"] := by
  exact ⟨rfl, rfl, rfl⟩

/-- C9 (amended): stored-image deletion is attempted strictly before the row
deletion in every revision.  In the multi-image revision each per-image
destroy failure is caught and ignored, so the delete still completes (200,
row gone) for every failure pattern, with a trace of destroys followed by
the row deletion.  In server.js, however, a destroy failure aborts the
operation: 500 is returned after the destroy attempt and the row is never
deleted. -/
theorem c9_image_deletion_ordering_amended :
    (∀ (id : String) (dOks : List Bool) (sc : Bool) (records : List RowP1)
        (objects : Finset String) (row : RowP1),
        records.find? (fun r => r.id == id) = some row →
        (part001Delete id dOks none true sc records objects).status = 200 ∧
        (∀ rr ∈ (part001Delete id dOks none true sc records objects).records,
            rr.id ≠ id) ∧
        ∃ pre, (part001Delete id dOks none true sc records objects).events
            = pre ++ [Ev.rowDelete id] ∧
          ∀ e ∈ pre, ∃ p, e = Ev.destroy p) ∧
    (∀ (id : ℕ) (records : List RowSJ) (objects : Finset String)
        (row : RowSJ),
        records.find? (fun r => r.id == id) = some row →
        row.cloudinary_id ≠ "" →
        (serverJsDelete id true none records objects).events
            = [Ev.destroy row.cloudinary_id, Ev.rowDelete (toString id)] ∧
        (serverJsDelete id true none records objects).status = some 200) ∧
    (∀ (id : ℕ) (rde : Option String) (records : List RowSJ)
        (objects : Finset String) (row : RowSJ),
        records.find? (fun r => r.id == id) = some row →
        row.cloudinary_id ≠ "" →
        (serverJsDelete id false rde records objects).status = some 500 ∧
        (serverJsDelete id false rde records objects).records = records ∧
        (serverJsDelete id false rde records objects).events
            = [Ev.destroy row.cloudinary_id]) := by
  refine ⟨?_, ?_, ?_⟩
  · intro id dOks sc records objects row hfind
    simp only [part001Delete, if_true, hfind]
    refine ⟨trivial, ?_, _, rfl, ?_⟩
    · intro rr hrr
      exact bne_iff_ne.mp (List.mem_filter.mp hrr).2
    · intro e he
      rcases List.mem_map.mp he with ⟨p, _, heq⟩
      exact ⟨p, heq.symm⟩
  · intro id records objects row hfind hcid
    simp only [serverJsDelete, hfind, if_pos hcid, if_true]
    exact ⟨trivial, trivial⟩
  · intro id rde records objects row hfind hcid
    simp only [serverJsDelete, hfind, if_pos hcid, Bool.false_eq_true,
      if_false]
    exact ⟨trivial, trivial, trivial⟩

/-- C9 witness: a multi-image delete whose only destroy fails still
completes with 200 and a destroys-then-row-delete trace, while the server.js
delete with a failing destroy stops with 500. -/
theorem c9_image_deletion_ordering_witness :
    ((part001Delete "p1" [false] none true true [rowP1a] ∅).status = 200 ∧
      ∃ pre, (part001Delete "p1" [false] none true true [rowP1a] ∅).events
          = pre ++ [Ev.rowDelete "p1"] ∧ ∀ e ∈ pre, ∃ p, e = Ev.destroy p) ∧
    (serverJsDelete 2 false none [{ rowSJ1 with id := 2 }] {"old1"}).status
        = some 500 ∧
    (serverJsDelete 2 false none [{ rowSJ1 with id := 2 }]
        {"old1"}).records = [{ rowSJ1 with id := 2 }] := by
  obtain ⟨h1, _, pre, hpre, hall⟩ := c9_image_deletion_ordering_amended.1
    "p1" [false] true [rowP1a] ∅ rowP1a rfl
  obtain ⟨h2, h3, _⟩ := c9_image_deletion_ordering_amended.2.2 2 none
    [{ rowSJ1 with id := 2 }] {"old1"} { rowSJ1 with id := 2 } rfl (by decide)
  exact ⟨⟨h1, pre, hpre, hall⟩, h2, h3⟩

/-! ### C10 — falsy structured fields in the single-image update -/

/-- C10 counterexample: the update body supplying the non-empty string "0"
for price is truthy, so `parseFloat` runs and the persisted price becomes 0
on a product whose stored price was 5 — an update request CAN set price to 0
through this operation. -/
theorem c10_price_zero_via_string :
    rowSJ1.price = some 5 ∧
    ((serverJsPut 1 bodyPriceZero false (Except.error "unused") true none true
        [rowSJ1] ∅).row.map RowSJ.price) = some (some 0) ∧
    (serverJsPut 1 bodyPriceZero false (Except.error "unused") true none true
        [rowSJ1] ∅).status = some 200 := by
  exact ⟨rfl, rfl, rfl⟩

/-- C10 (amended): in the single-image update, a structured field supplied
with a falsy value (`undefined`, empty string, or the number 0 for price) is
treated as omitted and the stored value is retained, and a text field can
never be cleared to empty by a string request; but price CAN still be set to
0 by supplying the non-empty string "0", which is truthy and parses to 0. -/
theorem c10_falsy_fields_amended (id : ℕ) (body : BodySJ)
    (upl : Except String UploadRes) (records : List RowSJ)
    (objects : Finset String) (old : RowSJ)
    (hfind : records.find? (fun r => r.id == id) = some old) :
    ∃ v, (serverJsPut id body false upl true none true records objects).row
        = some v ∧
      ((body.price = JSValue.undef ∨ body.price = JSValue.str "" ∨
          body.price = JSValue.num 0) → v.price = old.price) ∧
      ((body.productName = JSValue.undef ∨ body.productName = JSValue.str "")
          → v.product_name = old.product_name) ∧
      (∀ s, body.productName = JSValue.str s → old.product_name ≠ "" →
          v.product_name ≠ "") ∧
      (body.price = JSValue.str "0" → v.price = some 0) := by
  simp only [serverJsPut, hfind, Bool.false_eq_true, if_false, persistSJ]
  refine ⟨_, rfl, ?_, ?_, ?_, ?_⟩
  · rintro (h | h | h) <;> simp [updValuesSJ, h, JSValue.truthy]
  · rintro (h | h) <;> simp [updValuesSJ, h, JSValue.truthy]
  · intro s h hne
    simp only [updValuesSJ, h]
    by_cases hs : s = ""
    · subst hs
      simp [JSValue.truthy]
      exact hne
    · simp [JSValue.truthy, hs, JSValue.toStr]
  · intro h
    have ht : (JSValue.str "0").truthy = true := by decide
    simp only [updValuesSJ, h, ht, if_true]
    decide

/-- C10 witness: the amended theorem at a body carrying `price = 0` (the
number) and `productName = ""` — both are falsy and both stored values are
retained. -/
theorem c10_falsy_fields_witness :
    ∃ v, (serverJsPut 1 bodyFalsy false (Except.error "unused") true
        none true [rowSJ1] ∅).row = some v ∧
      v.price = some 5 ∧ v.product_name = "Widget" := by
  obtain ⟨v, hrow, hp, hn, _, _⟩ := c10_falsy_fields_amended 1 bodyFalsy
    (Except.error "unused") [rowSJ1] ∅ rowSJ1 rfl
  refine ⟨v, hrow, ?_, ?_⟩
  · rw [hp (Or.inr (Or.inr rfl))]; rfl
  · rw [hn (Or.inr rfl)]; rfl
